import Mathlib

/-!
Verification of the Opportunity Analysis & Portfolio Optimization Engine of the
getrack repository (src/lib/calculations.ts and
src/server/services/price-service.ts).

Numbers are modelled as exact rationals (`ℚ`); quantities and other values
produced by `Math.floor` are integers (`ℤ`).  `Number.MAX_SAFE_INTEGER` is the
integer constant `2^53 - 1`.  A JavaScript division whose result is non-finite
(NaN for `0/0`, ±Infinity otherwise) is modelled by `jsDiv`, which returns
`none` exactly when the divisor is zero.
-/

namespace GETrack

/-- `Number.MAX_SAFE_INTEGER` (`2^53 - 1`), used by the source as the
"unlimited" sentinel. -/
def maxSafeInteger : ℤ := 9007199254740991

/-- `GE_TAX_RATE` from calculations.ts. -/
def GE_TAX_RATE : ℚ := 0.02

/-- `MAX_GE_TAX` from calculations.ts. -/
def MAX_GE_TAX : ℤ := 5000000

/-- `MAX_MARGIN_PERCENT` from calculations.ts. -/
def MAX_MARGIN_PERCENT : ℚ := 1000

/-- Division as performed by JavaScript: the result is `none` when it is not a
finite number (NaN for `0/0`, ±Infinity for `x/0` with `x ≠ 0`). -/
def jsDiv (a b : ℚ) : Option ℚ := if b = 0 then none else some (a / b)

/-- `calculateMargin` from calculations.ts. -/
def calculateMargin (high low : ℚ) : ℚ := high - low

/-- `calculateMarginPercent` from calculations.ts. -/
def calculateMarginPercent (margin low : ℚ) : ℚ :=
  if low = 0 then 0 else margin / low * 100

/-- `calculateROI` from calculations.ts. -/
def calculateROI (profit cost : ℚ) : ℚ :=
  if cost = 0 then 0 else profit / cost * 100

/-- `calculateGETax` from calculations.ts:
`Math.min(Math.max(Math.floor(sellPrice * GE_TAX_RATE), 1), MAX_GE_TAX)`. -/
def calculateGETax (sellPrice : ℚ) : ℤ :=
  min (max ⌊sellPrice * GE_TAX_RATE⌋ 1) MAX_GE_TAX

/-- `calculateProfitAfterTax` from calculations.ts. -/
def calculateProfitAfterTax (margin high : ℚ) (quantity : ℤ) : ℚ :=
  (margin - (calculateGETax high : ℚ)) * (quantity : ℚ)

/-- Result record of `detectPriceAnomalies`. -/
structure PriceAnomalies where
  hasSpike : Bool
  hasCrash : Bool
  isStable : Bool
deriving DecidableEq

/-- `detectPriceAnomalies` from calculations.ts.  The averages divide the sum
of `slice(1)` by `length - 1`, which is at least 2 in the branch where they
are computed. -/
def detectPriceAnomalies (currentHigh currentLow : ℚ)
    (recentHighs recentLows : List ℚ) : PriceAnomalies :=
  if recentHighs.length < 3 ∨ recentLows.length < 3 then
    ⟨false, false, true⟩
  else
    let avgRecentHigh := (recentHighs.drop 1).sum / ((recentHighs.length : ℚ) - 1)
    let avgRecentLow := (recentLows.drop 1).sum / ((recentLows.length : ℚ) - 1)
    let hasSpike := decide (currentHigh > avgRecentHigh * 1.5)
    let hasCrash := decide (currentLow < avgRecentLow * 0.5)
    ⟨hasSpike, hasCrash, !hasSpike && !hasCrash⟩

/-- `calculateOptimalQuantity` from calculations.ts.  The source's optional
arguments (`volume = 0`, `maxBudgetPercent = 1.0`) are passed explicitly. -/
def calculateOptimalQuantity (budget avgPrice : ℚ) (buyLimit : ℤ)
    (volume : ℚ) (maxBudgetPercent : ℚ) : ℤ :=
  let maxBudgetForItem := budget * maxBudgetPercent
  let maxQuantityByBudget := ⌊maxBudgetForItem / avgPrice⌋
  let maxQuantityByPrice := ⌊budget / avgPrice⌋
  let effectiveBuyLimit := if buyLimit = 0 then maxSafeInteger else buyLimit
  let volumeBasedLimit := if volume > 0 then max 1 ⌊volume * 0.1⌋ else maxSafeInteger
  min (min (min effectiveBuyLimit maxQuantityByBudget) maxQuantityByPrice) volumeBasedLimit

/-- The volume-derived sizing bound of `calculateOptimalQuantity`
(`volumeBasedLimit` in the source), named for use in theorem statements. -/
def volumeDerivedBound (volume : ℚ) : ℤ :=
  if volume > 0 then max 1 ⌊volume * 0.1⌋ else maxSafeInteger

/-- `FlipOpportunity` from types/api.ts, restricted to the numeric fields the
engine computes with.  Display-only fields (`name`, `icon`, `lastUpdated`,
`riskLevel`, `isStable`) are omitted; the optional `compositeScore` is a plain
rational, `0` until `calculateOpportunityScores` assigns it (the sort
comparator reads `compositeScore || 0`, so `0` and "absent" coincide). -/
structure FlipOpportunity where
  id : ℤ
  currentHigh : ℚ
  currentLow : ℚ
  avgPrice : ℚ
  margin : ℚ
  marginPercent : ℚ
  roi : ℚ
  quantity : ℤ
  totalCost : ℚ
  totalProfit : ℚ
  profitAfterTax : ℚ
  buyLimit : ℤ
  volume : ℚ
  volatility : ℚ
  compositeScore : ℚ
deriving DecidableEq

/-- `hassufficientVolume` from calculations.ts. -/
def hassufficientVolume (volume itemPrice : ℚ) : Bool :=
  if itemPrice > 1000000 then decide (volume ≥ 50) else decide (volume ≥ 1200)

/-- `filterProfitableOpportunities` from calculations.ts. -/
def filterProfitableOpportunities (opportunities : List FlipOpportunity)
    (minProfit minROI minVolume maxVolatility : ℚ) : List FlipOpportunity :=
  opportunities.filter fun opp =>
    if opp.profitAfterTax < minProfit ∨ opp.roi < minROI then false
    else if opp.marginPercent > MAX_MARGIN_PERCENT then false
    else if !(hassufficientVolume opp.volume opp.currentHigh) then false
    else if minVolume > 0 ∧ opp.volume < minVolume then false
    else if opp.volatility > maxVolatility then false
    else true

/-- JavaScript `Array.prototype.findIndex`: the index of the first match, or
`-1` when there is none (`List.findIdx` returns the length in that case). -/
def jsFindIndex (p : FlipOpportunity → Bool) (l : List FlipOpportunity) : ℤ :=
  if l.findIdx p < l.length then (l.findIdx p : ℤ) else -1

/-- Comparator `(a, b) => b.profitAfterTax - a.profitAfterTax`: descending by
`profitAfterTax`. -/
def byProfitDesc : FlipOpportunity → FlipOpportunity → Prop :=
  fun a b => b.profitAfterTax ≤ a.profitAfterTax

/-- Comparator `(a, b) => b.volume - a.volume`: descending by `volume`. -/
def byVolumeDesc : FlipOpportunity → FlipOpportunity → Prop :=
  fun a b => b.volume ≤ a.volume

/-- Comparator `(a, b) => b.roi - a.roi`: descending by `roi`. -/
def byRoiDesc : FlipOpportunity → FlipOpportunity → Prop :=
  fun a b => b.roi ≤ a.roi

/-- Comparator `(a, b) => (b.compositeScore || 0) - (a.compositeScore || 0)`:
descending by `compositeScore`. -/
def byScoreDesc : FlipOpportunity → FlipOpportunity → Prop :=
  fun a b => b.compositeScore ≤ a.compositeScore

instance : DecidableRel byProfitDesc :=
  fun a b => inferInstanceAs (Decidable (b.profitAfterTax ≤ a.profitAfterTax))

instance : DecidableRel byVolumeDesc :=
  fun a b => inferInstanceAs (Decidable (b.volume ≤ a.volume))

instance : DecidableRel byRoiDesc :=
  fun a b => inferInstanceAs (Decidable (b.roi ≤ a.roi))

instance : DecidableRel byScoreDesc :=
  fun a b => inferInstanceAs (Decidable (b.compositeScore ≤ a.compositeScore))

instance : IsTotal FlipOpportunity byProfitDesc :=
  ⟨fun a b => le_total b.profitAfterTax a.profitAfterTax⟩

instance : IsTotal FlipOpportunity byVolumeDesc :=
  ⟨fun a b => le_total b.volume a.volume⟩

instance : IsTotal FlipOpportunity byRoiDesc :=
  ⟨fun a b => le_total b.roi a.roi⟩

instance : IsTotal FlipOpportunity byScoreDesc :=
  ⟨fun a b => le_total b.compositeScore a.compositeScore⟩

instance : IsTrans FlipOpportunity byProfitDesc :=
  ⟨fun _ _ _ hab hbc => le_trans hbc hab⟩

instance : IsTrans FlipOpportunity byVolumeDesc :=
  ⟨fun _ _ _ hab hbc => le_trans hbc hab⟩

instance : IsTrans FlipOpportunity byRoiDesc :=
  ⟨fun _ _ _ hab hbc => le_trans hbc hab⟩

instance : IsTrans FlipOpportunity byScoreDesc :=
  ⟨fun _ _ _ hab hbc => le_trans hbc hab⟩

/-- `calculateOpportunityScores` from calculations.ts.  The stable JavaScript
`sort` with a numeric comparator is modelled by the (stable) insertion sort on
the corresponding descending relation. -/
def calculateOpportunityScores (opportunities : List FlipOpportunity) :
    List FlipOpportunity :=
  if opportunities.length = 0 then opportunities
  else
    let sortedByProfit := opportunities.insertionSort byProfitDesc
    let sortedByVolume := opportunities.insertionSort byVolumeDesc
    let sortedByROI := opportunities.insertionSort byRoiDesc
    opportunities.map fun opp =>
      let profitRank := jsFindIndex (fun o => decide (o.id = opp.id)) sortedByProfit
      let volumeRank := jsFindIndex (fun o => decide (o.id = opp.id)) sortedByVolume
      let roiRank := jsFindIndex (fun o => decide (o.id = opp.id)) sortedByROI
      let profitScore := 1 - (profitRank : ℚ) / (opportunities.length : ℚ)
      let volumeScore := 1 - (volumeRank : ℚ) / (opportunities.length : ℚ)
      let roiScore := 1 - (roiRank : ℚ) / (opportunities.length : ℚ)
      { opp with compositeScore := profitScore * 0.5 + volumeScore * 0.3 + roiScore * 0.2 }

/-- `sortOpportunitiesByScore` from calculations.ts. -/
def sortOpportunitiesByScore (opportunities : List FlipOpportunity) :
    List FlipOpportunity :=
  (calculateOpportunityScores opportunities).insertionSort byScoreDesc

/-- The per-item body of `PriceService.getFlipOpportunities`
(price-service.ts lines 316-391) as a pure function: the early-reject gates
and the arithmetic producing one candidate.  `recentHighs`/`recentLows` are
the strictly positive prices of up to the 10 most recent samples, as built by
the caller.  `volatility` is `calculateVolatility recentHighs`; the source's
`calculateVolatility` takes a real square root, so its value is supplied as an
input here (it is `0` whenever `recentHighs` has fewer than 2 entries). -/
def evaluateItem (budget high low volume : ℚ) (buyLimit : ℤ)
    (recentHighs recentLows : List ℚ) (volatility : ℚ)
    (includeSpikes includeHighRisk : Bool) : Option FlipOpportunity :=
  if !(hassufficientVolume volume high) then none
  else
    let avgPrice := (high + low) / 2
    let margin := calculateMargin high low
    let marginPercent := calculateMarginPercent margin low
    if margin ≤ 0 ∨ avgPrice ≤ 0 then none
    else if !includeHighRisk ∧ volatility > 25 then none
    else if volatility > 30 then none
    else
      let priceAnalysis := detectPriceAnomalies high low recentHighs recentLows
      if !includeSpikes ∧ !priceAnalysis.isStable then none
      else
        let quantity := calculateOptimalQuantity budget avgPrice buyLimit volume 1
        if quantity = 0 then none
        else
          let totalCost := (quantity : ℚ) * low
          let totalProfit := (quantity : ℚ) * margin
          let profitAfterTax := calculateProfitAfterTax margin high quantity
          let roi := calculateROI profitAfterTax totalCost
          some
            { id := 0
              currentHigh := high
              currentLow := low
              avgPrice := avgPrice
              margin := margin
              marginPercent := marginPercent
              roi := roi
              quantity := quantity
              totalCost := totalCost
              totalProfit := totalProfit
              profitAfterTax := profitAfterTax
              buyLimit := buyLimit
              volume := volume
              volatility := volatility
              compositeScore := 0 }

/-- The final filtering and ranking pass of `PriceService.getFlipOpportunities`
(price-service.ts lines 393-407): the post-evaluation filter, then the
budget-dependent choice between a pure descending-ROI sort and the composite
ranking. -/
def rankFlipOpportunities (budget : ℚ) (opportunities : List FlipOpportunity)
    (minVolume maxVolatility : ℚ) : List FlipOpportunity :=
  let profitableOpportunities :=
    filterProfitableOpportunities opportunities 1000 5 minVolume maxVolatility
  if budget > 100000000 then profitableOpportunities.insertionSort byRoiDesc
  else sortOpportunitiesByScore profitableOpportunities

/-- `PortfolioSuggestion` from types/api.ts (numeric fields; `updatedAt`
omitted).  `budgetUtilization` is `totalCost / budget * 100`, a JavaScript
division that is NaN when both sides are zero, hence an `Option ℚ`. -/
structure PortfolioSuggestion where
  totalBudget : ℚ
  totalCost : ℚ
  totalProfit : ℚ
  totalProfitAfterTax : ℚ
  totalROI : ℚ
  opportunities : List FlipOpportunity
  itemCount : ℕ
  budgetUtilization : Option ℚ

/-- The quantity chosen for one candidate inside the selection loop of
`PriceService.getPortfolioSuggestion` (price-service.ts lines 444-460). -/
def adjustedQuantity (budget remainingBudget : ℚ) (opportunity : FlipOpportunity) : ℤ :=
  if opportunity.buyLimit = 0 then
    let volumeMultiplier : ℚ := if remainingBudget > budget * 0.5 then 0.2 else 0.1
    min ⌊remainingBudget / opportunity.currentLow⌋
      ⌊opportunity.volume * volumeMultiplier⌋
  else
    min opportunity.quantity ⌊remainingBudget / opportunity.currentLow⌋

/-- The recomputation of a selected candidate's metrics for its adjusted
quantity (price-service.ts lines 464-481). -/
def adjustOpportunity (opportunity : FlipOpportunity) (q : ℤ) : FlipOpportunity :=
  let totalCost := (q : ℚ) * opportunity.currentLow
  let profitAfterTax :=
    calculateProfitAfterTax opportunity.margin opportunity.currentHigh q
  { opportunity with
    quantity := q
    totalCost := totalCost
    totalProfit := (q : ℚ) * opportunity.margin
    profitAfterTax := profitAfterTax
    roi := calculateROI profitAfterTax totalCost }

/-- The greedy selection loop of `PriceService.getPortfolioSuggestion`
(price-service.ts lines 434-486).  `count` is the number of selections so far
(`selectedOpportunities.length`); the result is the list of selections made
from the remaining candidates together with the final remaining budget. -/
def selectOpportunities (budget : ℚ) :
    ℚ → ℕ → List FlipOpportunity → List FlipOpportunity × ℚ
  | remainingBudget, _, [] => ([], remainingBudget)
  | remainingBudget, count, opportunity :: rest =>
    if remainingBudget ≤ 0 ∨ 8 ≤ count then ([], remainingBudget)
    else
      let q := adjustedQuantity budget remainingBudget opportunity
      if 0 < q then
        let adjusted := adjustOpportunity opportunity q
        let further :=
          selectOpportunities budget (remainingBudget - adjusted.totalCost) (count + 1) rest
        (adjusted :: further.1, further.2)
      else
        selectOpportunities budget remainingBudget count rest

/-- Sum of the `totalCost` fields of a selection list. -/
def sumCost (l : List FlipOpportunity) : ℚ := (l.map FlipOpportunity.totalCost).sum

/-- `PriceService.getPortfolioSuggestion` (price-service.ts lines 426-505) as
a function of the budget and the ranked candidate list it iterates over: the
greedy selection pass followed by the portfolio-wide metric aggregation. -/
def getPortfolioSuggestion (budget : ℚ) (opportunities : List FlipOpportunity) :
    PortfolioSuggestion :=
  let selected := (selectOpportunities budget budget 0 opportunities).1
  let totalCost := sumCost selected
  let totalProfit := (selected.map FlipOpportunity.totalProfit).sum
  let totalProfitAfterTax := (selected.map FlipOpportunity.profitAfterTax).sum
  { totalBudget := budget
    totalCost := totalCost
    totalProfit := totalProfit
    totalProfitAfterTax := totalProfitAfterTax
    totalROI := calculateROI totalProfitAfterTax totalCost
    opportunities := selected
    itemCount := selected.length
    budgetUtilization := (jsDiv totalCost budget).map (· * 100) }

/-- A concrete candidate (the shape used by the repository's own filter test):
passes every default filter. -/
def sampleOpp : FlipOpportunity :=
  { id := 1
    currentHigh := 100
    currentLow := 90
    avgPrice := 95
    margin := 10
    marginPercent := 10
    roi := 10
    quantity := 1
    totalCost := 90
    totalProfit := 10
    profitAfterTax := 2000
    buyLimit := 100
    volume := 2000
    volatility := 5
    compositeScore := 0 }

/-- A second concrete candidate with a distinct id and different metrics. -/
def sampleOpp2 : FlipOpportunity :=
  { id := 2
    currentHigh := 500
    currentLow := 450
    avgPrice := 475
    margin := 50
    marginPercent := 50 / 450 * 100
    roi := 20
    quantity := 3
    totalCost := 1350
    totalProfit := 150
    profitAfterTax := 3000
    buyLimit := 0
    volume := 5000
    volatility := 10
    compositeScore := 0 }

/-- C3: `calculateGETax` computes `floor(sellPrice × 0.02)` and then clamps to
the closed range [1, 5000000]: for every positive sell price the tax lies in
that range, and the tax of a zero sell price is 1. -/
theorem calculateGETax_clamp (sellPrice : ℚ) :
    (0 < sellPrice →
      1 ≤ calculateGETax sellPrice ∧ calculateGETax sellPrice ≤ 5000000) ∧
    calculateGETax 0 = 1 := by
  refine ⟨fun _ => ⟨?_, ?_⟩, ?_⟩
  · exact le_min (le_max_right _ _) (by norm_num [MAX_GE_TAX])
  · exact le_trans (min_le_right _ _) (by norm_num [MAX_GE_TAX])
  · norm_num [calculateGETax, GE_TAX_RATE, MAX_GE_TAX]

/-- Witness for C3 at the concrete sell price 300. -/
theorem calculateGETax_clamp_witness :
    (1 ≤ calculateGETax 300 ∧ calculateGETax 300 ≤ 5000000) ∧
    calculateGETax 0 = 1 :=
  ⟨(calculateGETax_clamp 300).1 (by norm_num), (calculateGETax_clamp 300).2⟩

/-- C4: `detectPriceAnomalies` reports `{hasSpike := false, hasCrash := false,
isStable := true}` whenever either recent list has fewer than 3 entries;
otherwise it excludes index 0 from each list, averages the remaining entries,
and flags `hasSpike` iff `currentHigh > avgRecentHigh × 1.5`, `hasCrash` iff
`currentLow < avgRecentLow × 0.5`, with `isStable` iff neither flag is set. -/
theorem detectPriceAnomalies_spec (currentHigh currentLow : ℚ)
    (recentHighs recentLows : List ℚ) :
    (recentHighs.length < 3 ∨ recentLows.length < 3 →
      detectPriceAnomalies currentHigh currentLow recentHighs recentLows =
        ⟨false, false, true⟩) ∧
    (3 ≤ recentHighs.length → 3 ≤ recentLows.length →
      ((detectPriceAnomalies currentHigh currentLow recentHighs recentLows).hasSpike
          = true ↔
        currentHigh > (recentHighs.drop 1).sum / ((recentHighs.length : ℚ) - 1) * 1.5) ∧
      ((detectPriceAnomalies currentHigh currentLow recentHighs recentLows).hasCrash
          = true ↔
        currentLow < (recentLows.drop 1).sum / ((recentLows.length : ℚ) - 1) * 0.5) ∧
      (detectPriceAnomalies currentHigh currentLow recentHighs recentLows).isStable =
        (!(detectPriceAnomalies currentHigh currentLow recentHighs recentLows).hasSpike &&
         !(detectPriceAnomalies currentHigh currentLow recentHighs recentLows).hasCrash)) := by
  constructor
  · intro h
    rw [detectPriceAnomalies, if_pos h]
  · intro h1 h2
    have hcond : ¬(recentHighs.length < 3 ∨ recentLows.length < 3) := by omega
    simp only [detectPriceAnomalies, if_neg hcond]
    refine ⟨?_, ?_, trivial⟩ <;> simp [decide_eq_true_eq]

/-- Witness for C4: the short-history branch at lists of length 2, and the
spike test at lists of length 3. -/
theorem detectPriceAnomalies_spec_witness :
    detectPriceAnomalies 100 90 [100, 95] [90, 88] = ⟨false, false, true⟩ ∧
    ((detectPriceAnomalies 200 90 [200, 100, 100] [90, 95, 96]).hasSpike = true ↔
      (200 : ℚ) > ([(200 : ℚ), 100, 100].drop 1).sum /
        (([(200 : ℚ), 100, 100].length : ℚ) - 1) * 1.5) :=
  ⟨(detectPriceAnomalies_spec 100 90 [100, 95] [90, 88]).1 (by simp),
   ((detectPriceAnomalies_spec 200 90 [200, 100, 100] [90, 95, 96]).2
      (by simp) (by simp)).1⟩

/-- C7: no candidate whose `marginPercent` exceeds the 1000% cap survives
`filterProfitableOpportunities`, whatever the caller-supplied thresholds and
the candidate's other fields. -/
theorem filterProfitableOpportunities_marginPercent
    (opportunities : List FlipOpportunity)
    (minProfit minROI minVolume maxVolatility : ℚ) :
    ∀ o ∈ filterProfitableOpportunities opportunities minProfit minROI
        minVolume maxVolatility,
      o.marginPercent ≤ MAX_MARGIN_PERCENT := by
  intro o ho
  rw [filterProfitableOpportunities, List.mem_filter] at ho
  have hf := ho.2
  split at hf
  · simp at hf
  · split at hf
    · simp at hf
    · next h2 => exact not_lt.mp h2

/-- Witness for C7: a surviving candidate of the filter. -/
theorem filterProfitableOpportunities_marginPercent_witness :
    sampleOpp.marginPercent ≤ MAX_MARGIN_PERCENT :=
  filterProfitableOpportunities_marginPercent [sampleOpp] 1000 5 0 30 sampleOpp
    (by decide)

/-- In both branches of the selection loop the adjusted quantity is at most
`⌊remainingBudget / currentLow⌋`. -/
theorem adjustedQuantity_le_floor (budget remainingBudget : ℚ)
    (o : FlipOpportunity) :
    adjustedQuantity budget remainingBudget o ≤
      ⌊remainingBudget / o.currentLow⌋ := by
  rw [adjustedQuantity]
  split
  · exact min_le_left _ _
  · exact min_le_right _ _

/-- A quantity below `⌊r / low⌋` costs at most `r` when `low` is positive. -/
theorem quantity_cost_le (r low : ℚ) (hlow : 0 < low) (q : ℤ)
    (hq : q ≤ ⌊r / low⌋) : (q : ℚ) * low ≤ r := by
  have h1 : (q : ℚ) ≤ r / low :=
    le_trans (by exact_mod_cast hq) (Int.floor_le _)
  calc (q : ℚ) * low ≤ r / low * low := mul_le_mul_of_nonneg_right h1 hlow.le
    _ = r := div_mul_cancel₀ r hlow.ne'

/-- The recomputed cost of a selection. -/
theorem adjustOpportunity_totalCost (o : FlipOpportunity) (q : ℤ) :
    (adjustOpportunity o q).totalCost = (q : ℚ) * o.currentLow := rfl

/-- The recomputed cost of a selection keeps the candidate's buy price. -/
theorem adjustOpportunity_currentLow (o : FlipOpportunity) (q : ℤ) :
    (adjustOpportunity o q).currentLow = o.currentLow := rfl

/-- The selection loop makes at most `8 - count` further selections. -/
theorem selectOpportunities_length (budget : ℚ)
    (opportunities : List FlipOpportunity) :
    ∀ (remainingBudget : ℚ) (count : ℕ), count ≤ 8 →
      (selectOpportunities budget remainingBudget count opportunities).1.length +
        count ≤ 8 := by
  induction opportunities with
  | nil =>
    intro r count hc
    simpa [selectOpportunities] using hc
  | cons o rest ih =>
    intro r count hc
    rw [selectOpportunities]
    split
    · simpa using hc
    · next hcond =>
      rw [not_or] at hcond
      have hcount : count < 8 := Nat.lt_of_not_le hcond.2
      dsimp only
      split
      · have hrec := ih (r - (adjustOpportunity o
          (adjustedQuantity budget r o)).totalCost) (count + 1) (by omega)
        simp only [List.length_cons]
        omega
      · exact ih r count hc

/-- The selections made by the loop never cost more than the remaining budget
it starts from, provided every candidate has a positive buy price. -/
theorem selectOpportunities_cost (budget : ℚ)
    (opportunities : List FlipOpportunity)
    (hlow : ∀ o ∈ opportunities, 0 < o.currentLow) :
    ∀ (remainingBudget : ℚ) (count : ℕ), 0 ≤ remainingBudget →
      sumCost (selectOpportunities budget remainingBudget count opportunities).1 ≤
        remainingBudget := by
  induction opportunities with
  | nil =>
    intro r count hr
    simpa [selectOpportunities, sumCost] using hr
  | cons o rest ih =>
    intro r count hr
    have hlow0 : 0 < o.currentLow := hlow o (List.mem_cons_self o rest)
    have hlowr : ∀ x ∈ rest, 0 < x.currentLow :=
      fun x hx => hlow x (List.mem_cons_of_mem o hx)
    rw [selectOpportunities]
    split
    · simpa [sumCost] using hr
    · dsimp only
      split
      · next hq =>
        have hcost : ((adjustedQuantity budget r o : ℚ)) * o.currentLow ≤ r :=
          quantity_cost_le r o.currentLow hlow0 _
            (adjustedQuantity_le_floor budget r o)
        have hrec := ih hlowr
          (r - (adjustOpportunity o (adjustedQuantity budget r o)).totalCost)
          (count + 1)
          (by rw [adjustOpportunity_totalCost]; linarith)
        simp only [sumCost, List.map_cons, List.sum_cons] at hrec ⊢
        rw [adjustOpportunity_totalCost] at hrec ⊢
        linarith
      · exact ih hlowr r count hr

/-- Every selection made by the loop has strictly positive cost, provided
every candidate has a positive buy price. -/
theorem selectOpportunities_pos (budget : ℚ)
    (opportunities : List FlipOpportunity)
    (hlow : ∀ o ∈ opportunities, 0 < o.currentLow) :
    ∀ (remainingBudget : ℚ) (count : ℕ),
      ∀ s ∈ (selectOpportunities budget remainingBudget count opportunities).1,
        0 < s.totalCost := by
  induction opportunities with
  | nil =>
    intro r count s hs
    simp [selectOpportunities] at hs
  | cons o rest ih =>
    intro r count s hs
    have hlow0 : 0 < o.currentLow := hlow o (List.mem_cons_self o rest)
    have hlowr : ∀ x ∈ rest, 0 < x.currentLow :=
      fun x hx => hlow x (List.mem_cons_of_mem o hx)
    rw [selectOpportunities] at hs
    split at hs
    · simp at hs
    · dsimp only at hs
      split at hs
      · next hq =>
        rcases List.mem_cons.mp hs with hs | hs
        · subst hs
          rw [adjustOpportunity_totalCost]
          have hq1 : (1 : ℚ) ≤ (adjustedQuantity budget r o : ℚ) := by
            exact_mod_cast hq
          nlinarith
        · exact ih hlowr _ (count + 1) s hs
      · exact ih hlowr r count s hs

/-- C1: for every candidate list with positive buy prices and every budget ≥ 0,
the portfolio built by the selection pass of `getPortfolioSuggestion` has at
most 8 selections, costs at most the budget, and every selection has strictly
positive `totalCost`. -/
theorem getPortfolioSuggestion_invariants (budget : ℚ)
    (candidates : List FlipOpportunity) (hb : 0 ≤ budget)
    (hlow : ∀ c ∈ candidates, 0 < c.currentLow) :
    (getPortfolioSuggestion budget candidates).opportunities.length ≤ 8 ∧
    (getPortfolioSuggestion budget candidates).totalCost ≤ budget ∧
    ∀ s ∈ (getPortfolioSuggestion budget candidates).opportunities,
      0 < s.totalCost := by
  refine ⟨?_, ?_, ?_⟩
  · have h := selectOpportunities_length budget candidates budget 0 (by norm_num)
    simpa [getPortfolioSuggestion] using h
  · have h := selectOpportunities_cost budget candidates hlow budget 0 hb
    simpa [getPortfolioSuggestion] using h
  · have h := selectOpportunities_pos budget candidates hlow budget 0
    simpa [getPortfolioSuggestion] using h

/-- Witness for C1 at budget 1000 and one concrete candidate. -/
theorem getPortfolioSuggestion_invariants_witness :
    (getPortfolioSuggestion 1000 [sampleOpp]).opportunities.length ≤ 8 ∧
    (getPortfolioSuggestion 1000 [sampleOpp]).totalCost ≤ 1000 ∧
    ∀ s ∈ (getPortfolioSuggestion 1000 [sampleOpp]).opportunities,
      0 < s.totalCost :=
  getPortfolioSuggestion_invariants 1000 [sampleOpp] (by norm_num) (by decide)

/-- C8 counterexample: at budget = 0 the selection pass does return an empty
portfolio, but `budgetUtilization` is `0/0 × 100`, i.e. NaN — a non-finite
field (`none` in the model) does propagate into the returned portfolio. -/
theorem getPortfolioSuggestion_zero_budget_nan :
    (getPortfolioSuggestion 0 [sampleOpp]).budgetUtilization = none := by decide

/-- C8 amended: for every budget ≤ 0 the portfolio has no selections and
all-zero totals; for a strictly negative budget every field is finite
(`budgetUtilization` is 0), while at budget = 0 `budgetUtilization` is NaN
(`0/0`, modelled as `none`). -/
theorem getPortfolioSuggestion_nonpositive_budget (budget : ℚ)
    (candidates : List FlipOpportunity) (hb : budget ≤ 0) :
    (getPortfolioSuggestion budget candidates).opportunities = [] ∧
    (getPortfolioSuggestion budget candidates).itemCount = 0 ∧
    (getPortfolioSuggestion budget candidates).totalCost = 0 ∧
    (getPortfolioSuggestion budget candidates).totalProfit = 0 ∧
    (getPortfolioSuggestion budget candidates).totalProfitAfterTax = 0 ∧
    (getPortfolioSuggestion budget candidates).totalROI = 0 ∧
    (budget < 0 →
      (getPortfolioSuggestion budget candidates).budgetUtilization = some 0) ∧
    (budget = 0 →
      (getPortfolioSuggestion budget candidates).budgetUtilization = none) := by
  have hsel : (selectOpportunities budget budget 0 candidates).1 = [] := by
    cases candidates with
    | nil => rfl
    | cons o rest => rw [selectOpportunities, if_pos (Or.inl hb)]
  refine ⟨?_, ?_, ?_, ?_, ?_, ?_, ?_, ?_⟩
  · simp [getPortfolioSuggestion, hsel]
  · simp [getPortfolioSuggestion, hsel]
  · simp [getPortfolioSuggestion, hsel, sumCost]
  · simp [getPortfolioSuggestion, hsel]
  · simp [getPortfolioSuggestion, hsel]
  · simp [getPortfolioSuggestion, hsel, sumCost, calculateROI]
  · intro hlt
    simp [getPortfolioSuggestion, hsel, sumCost, jsDiv, ne_of_lt hlt]
  · intro heq
    simp [getPortfolioSuggestion, hsel, sumCost, jsDiv, heq]

/-- Witness for C8 at budget = -5 and one concrete candidate. -/
theorem getPortfolioSuggestion_nonpositive_budget_witness :
    (getPortfolioSuggestion (-5) [sampleOpp]).opportunities = [] ∧
    (getPortfolioSuggestion (-5) [sampleOpp]).itemCount = 0 ∧
    (getPortfolioSuggestion (-5) [sampleOpp]).totalCost = 0 ∧
    (getPortfolioSuggestion (-5) [sampleOpp]).totalProfit = 0 ∧
    (getPortfolioSuggestion (-5) [sampleOpp]).totalProfitAfterTax = 0 ∧
    (getPortfolioSuggestion (-5) [sampleOpp]).totalROI = 0 ∧
    ((-5 : ℚ) < 0 →
      (getPortfolioSuggestion (-5) [sampleOpp]).budgetUtilization = some 0) ∧
    ((-5 : ℚ) = 0 →
      (getPortfolioSuggestion (-5) [sampleOpp]).budgetUtilization = none) :=
  getPortfolioSuggestion_nonpositive_budget (-5) [sampleOpp] (by norm_num)

/-- C5 counterexample: with positionLimit = 0, a budget-derived bound of 2^54
and a volume-derived bound of 2^54, the result is the 2^53 - 1 sentinel — not
the minimum of the budget- and volume-derived bounds, so with
positionLimit = 0 the result is not constrained only by those two bounds. -/
theorem calculateOptimalQuantity_sentinel_caps :
    calculateOptimalQuantity 18014398509481984 1 0 180143985094819840 1 =
      9007199254740991 ∧
    min ⌊(18014398509481984 : ℚ) / 1⌋ (volumeDerivedBound 180143985094819840) =
      18014398509481984 ∧
    (9007199254740991 : ℤ) ≠ 18014398509481984 := by
  with_unfolding_all decide

/-- C5 amended: the sized quantity never exceeds `positionLimit` when it is
nonzero; when positionLimit = 0 the result equals
min(⌊budget/avgPrice⌋, volume-derived bound) whenever that minimum does not
exceed the 2^53 - 1 "unlimited" sentinel, which otherwise caps the result. -/
theorem calculateOptimalQuantity_positionLimit (budget avgPrice volume : ℚ)
    (positionLimit : ℤ) (hp : 0 < avgPrice) :
    (positionLimit ≠ 0 →
      calculateOptimalQuantity budget avgPrice positionLimit volume 1 ≤
        positionLimit) ∧
    (positionLimit = 0 →
      min ⌊budget / avgPrice⌋ (volumeDerivedBound volume) ≤ maxSafeInteger →
      calculateOptimalQuantity budget avgPrice 0 volume 1 =
        min ⌊budget / avgPrice⌋ (volumeDerivedBound volume)) := by
  unfold calculateOptimalQuantity volumeDerivedBound
  rw [mul_one]
  constructor
  · intro hne
    rw [if_neg hne]
    exact le_trans (min_le_left _ _) (le_trans (min_le_left _ _) (min_le_left _ _))
  · intro _ hle
    dsimp only
    rw [if_pos rfl]
    unfold maxSafeInteger at hle ⊢
    generalize (if volume > 0 then max 1 ⌊volume * 0.1⌋ else (9007199254740991 : ℤ)) = V at hle ⊢
    generalize ⌊budget / avgPrice⌋ = X at hle ⊢
    omega

/-- Witness for C5: the buy limit 100 binds at avgPrice 105 and budget 10000,
and with buy limit 0 the result is the budget/volume minimum. -/
theorem calculateOptimalQuantity_positionLimit_witness :
    calculateOptimalQuantity 10000 105 100 2000 1 ≤ 100 ∧
    calculateOptimalQuantity 10000 105 0 2000 1 =
      min ⌊(10000 : ℚ) / 105⌋ (volumeDerivedBound 2000) :=
  ⟨(calculateOptimalQuantity_positionLimit 10000 105 2000 100 (by norm_num)).1
      (by with_unfolding_all decide),
   (calculateOptimalQuantity_positionLimit 10000 105 2000 0 (by norm_num)).2
      rfl (by with_unfolding_all decide)⟩

/-- C6 counterexample: the source has no final flooring at 0 — a negative
budget yields a negative quantity — and with positionLimit = 0 and volume = 0
the 2^53 - 1 sentinel (not +∞) can be the returned minimum. -/
theorem calculateOptimalQuantity_no_floor_at_zero :
    (calculateOptimalQuantity (-100) 1 5 0 1 = -100 ∧
     calculateOptimalQuantity (-100) 1 5 0 1 < 0) ∧
    (calculateOptimalQuantity 18014398509481984 1 0 0 1 = 9007199254740991 ∧
     ⌊(18014398509481984 : ℚ) / 1⌋ = 18014398509481984) := by
  with_unfolding_all decide

/-- C6 amended: for avgPrice > 0, positionLimit ≥ 0 and volume ≥ 0 the sized
quantity is exactly min(effectiveLimit, byAllocation, byBudget, byVolume) with
the 2^53 - 1 sentinel in place of +∞ and no flooring at 0; the result is
nonnegative whenever the budget is. -/
theorem calculateOptimalQuantity_formula (budget avgPrice volume : ℚ)
    (positionLimit : ℤ) (hp : 0 < avgPrice) (hl : 0 ≤ positionLimit)
    (hv : 0 ≤ volume) :
    calculateOptimalQuantity budget avgPrice positionLimit volume 1 =
      min (min (min (if positionLimit = 0 then maxSafeInteger else positionLimit)
          ⌊budget / avgPrice⌋) ⌊budget / avgPrice⌋) (volumeDerivedBound volume) ∧
    (0 ≤ budget →
      0 ≤ calculateOptimalQuantity budget avgPrice positionLimit volume 1) := by
  constructor
  · unfold calculateOptimalQuantity volumeDerivedBound
    rw [mul_one]
  · intro hb
    have hfloor : (0 : ℤ) ≤ ⌊budget / avgPrice⌋ :=
      Int.floor_nonneg.mpr (div_nonneg hb hp.le)
    have heff : (0 : ℤ) ≤ (if positionLimit = 0 then maxSafeInteger else positionLimit) := by
      split
      · decide
      · exact hl
    have hvol : (0 : ℤ) ≤ (if volume > 0 then max 1 ⌊volume * 0.1⌋ else maxSafeInteger) := by
      split
      · exact le_trans (by norm_num) (le_max_left _ _)
      · decide
    unfold calculateOptimalQuantity
    rw [mul_one]
    exact le_min (le_min (le_min heff hfloor) hfloor) hvol

/-- Witness for C6 at budget 10000, avgPrice 105, positionLimit 100,
volume 2000. -/
theorem calculateOptimalQuantity_formula_witness :
    (calculateOptimalQuantity 10000 105 100 2000 1 =
      min (min (min (if (100 : ℤ) = 0 then maxSafeInteger else 100)
          ⌊(10000 : ℚ) / 105⌋) ⌊(10000 : ℚ) / 105⌋) (volumeDerivedBound 2000)) ∧
    0 ≤ calculateOptimalQuantity 10000 105 100 2000 1 :=
  ⟨(calculateOptimalQuantity_formula 10000 105 2000 100 (by norm_num)
      (by norm_num) (by norm_num)).1,
   (calculateOptimalQuantity_formula 10000 105 2000 100 (by norm_num)
      (by norm_num) (by norm_num)).2 (by norm_num)⟩

/-- C2 counterexample: for the scenario item (high 110, low 100, volume 2000,
buy limit 100, budget 10000) the evaluator divides the budget by
avgPrice = 105, not by the buy price 100, so the sized quantity is 95 — not
100 — and the total cost is 9500, not 10000. -/
theorem evaluateItem_scenario_quantity :
    (evaluateItem 10000 110 100 2000 100 [110] [100] 0 false false).map
        FlipOpportunity.quantity = some 95 ∧
    (evaluateItem 10000 110 100 2000 100 [110] [100] 0 false false).map
        FlipOpportunity.totalCost = some 9500 ∧
    some (95 : ℤ) ≠ some 100 := by
  norm_num [evaluateItem, hassufficientVolume, calculateMargin, calculateMarginPercent,
    calculateOptimalQuantity, maxSafeInteger, detectPriceAnomalies,
    calculateProfitAfterTax, calculateGETax, GE_TAX_RATE, MAX_GE_TAX, calculateROI]

/-- C2 amended: the scenario item yields margin 10, tax 2, per-unit after-tax
profit 8, sized quantity 95 = min(100, ⌊10000/105⌋, ⌊2000 × 0.1⌋),
totalCost 9500, profitAfterTax 760 and roi 8%. -/
theorem evaluateItem_scenario :
    calculateGETax 110 = 2 ∧
    calculateProfitAfterTax 10 110 1 = 8 ∧
    (evaluateItem 10000 110 100 2000 100 [110] [100] 0 false false).map
        FlipOpportunity.margin = some 10 ∧
    (evaluateItem 10000 110 100 2000 100 [110] [100] 0 false false).map
        FlipOpportunity.quantity = some 95 ∧
    (evaluateItem 10000 110 100 2000 100 [110] [100] 0 false false).map
        FlipOpportunity.totalCost = some 9500 ∧
    (evaluateItem 10000 110 100 2000 100 [110] [100] 0 false false).map
        FlipOpportunity.profitAfterTax = some 760 ∧
    (evaluateItem 10000 110 100 2000 100 [110] [100] 0 false false).map
        FlipOpportunity.roi = some 8 := by
  norm_num [evaluateItem, hassufficientVolume, calculateMargin, calculateMarginPercent,
    calculateOptimalQuantity, maxSafeInteger, detectPriceAnomalies,
    calculateProfitAfterTax, calculateGETax, GE_TAX_RATE, MAX_GE_TAX, calculateROI]

/-- C9: when the budget exceeds 100,000,000 the candidate list returned by the
final pass of `getFlipOpportunities` is the pure descending-ROI sort of the
post-filtered candidates — composite ranking is not applied — and otherwise
it is sorted by composite score descending. -/
theorem rankFlipOpportunities_sorted (budget : ℚ)
    (opportunities : List FlipOpportunity) (minVolume maxVolatility : ℚ) :
    (budget > 100000000 →
      rankFlipOpportunities budget opportunities minVolume maxVolatility =
        (filterProfitableOpportunities opportunities 1000 5 minVolume
          maxVolatility).insertionSort byRoiDesc ∧
      List.Sorted byRoiDesc
        (rankFlipOpportunities budget opportunities minVolume maxVolatility)) ∧
    (budget ≤ 100000000 →
      rankFlipOpportunities budget opportunities minVolume maxVolatility =
        sortOpportunitiesByScore
          (filterProfitableOpportunities opportunities 1000 5 minVolume
            maxVolatility) ∧
      List.Sorted byScoreDesc
        (rankFlipOpportunities budget opportunities minVolume maxVolatility)) := by
  constructor
  · intro h
    have heq : rankFlipOpportunities budget opportunities minVolume maxVolatility =
        (filterProfitableOpportunities opportunities 1000 5 minVolume
          maxVolatility).insertionSort byRoiDesc := by
      rw [rankFlipOpportunities, if_pos h]
    exact ⟨heq, heq ▸ List.sorted_insertionSort byRoiDesc _⟩
  · intro h
    have heq : rankFlipOpportunities budget opportunities minVolume maxVolatility =
        sortOpportunitiesByScore (filterProfitableOpportunities opportunities
          1000 5 minVolume maxVolatility) := by
      rw [rankFlipOpportunities, if_neg (not_lt.mpr h)]
    refine ⟨heq, ?_⟩
    rw [heq, sortOpportunitiesByScore]
    exact List.sorted_insertionSort byScoreDesc _

/-- Witness for C9 at budgets 200,000,000 and 1000 over two concrete
candidates. -/
theorem rankFlipOpportunities_sorted_witness :
    List.Sorted byRoiDesc
      (rankFlipOpportunities 200000000 [sampleOpp, sampleOpp2] 0 30) ∧
    List.Sorted byScoreDesc
      (rankFlipOpportunities 1000 [sampleOpp, sampleOpp2] 0 30) :=
  ⟨((rankFlipOpportunities_sorted 200000000 [sampleOpp, sampleOpp2] 0 30).1
      (by norm_num)).2,
   ((rankFlipOpportunities_sorted 1000 [sampleOpp, sampleOpp2] 0 30).2
      (by norm_num)).2⟩

/-- A found `jsFindIndex` is a genuine index: nonnegative and below the list
length. -/
theorem jsFindIndex_range (p : FlipOpportunity → Bool)
    (l : List FlipOpportunity) (h : ∃ x ∈ l, p x) :
    0 ≤ jsFindIndex p l ∧ jsFindIndex p l < l.length := by
  have hlt := List.findIdx_lt_length_of_exists h
  rw [jsFindIndex, if_pos hlt]
  exact ⟨Int.ofNat_nonneg _, by exact_mod_cast hlt⟩

/-- A per-metric score `1 - rank/n` lies in (0, 1] for a genuine rank. -/
theorem rank_score_bounds (n : ℕ) (i : ℤ) (hn : 0 < n) (h0 : 0 ≤ i)
    (hi : i < n) : 0 < 1 - (i : ℚ) / n ∧ 1 - (i : ℚ) / n ≤ 1 := by
  have hn' : (0 : ℚ) < n := by exact_mod_cast hn
  constructor
  · have hi' : (i : ℚ) < n := by exact_mod_cast hi
    have := (div_lt_one hn').mpr hi'
    linarith
  · have h0' : 0 ≤ (i : ℚ) / n := div_nonneg (by exact_mod_cast h0) hn'.le
    linarith

/-- C10: for a non-empty candidate list with pairwise-distinct item ids,
every composite score assigned by `calculateOpportunityScores` lies in the
half-open interval (0, 1]. -/
theorem calculateOpportunityScores_range (opportunities : List FlipOpportunity)
    (hne : opportunities ≠ [])
    (hids : opportunities.Pairwise (fun a b => a.id ≠ b.id)) :
    ∀ o ∈ calculateOpportunityScores opportunities,
      0 < o.compositeScore ∧ o.compositeScore ≤ 1 := by
  intro o ho
  have hn : 0 < opportunities.length := List.length_pos.mpr hne
  rw [calculateOpportunityScores, if_neg (by omega)] at ho
  simp only [List.mem_map] at ho
  obtain ⟨opp, hopp, rfl⟩ := ho
  have hfind : ∀ r : FlipOpportunity → FlipOpportunity → Prop,
      ∀ inst : DecidableRel r,
        0 ≤ jsFindIndex (fun o => decide (o.id = opp.id))
            (opportunities.insertionSort r) ∧
        jsFindIndex (fun o => decide (o.id = opp.id))
            (opportunities.insertionSort r) < opportunities.length := by
    intro r inst
    have hmem : opp ∈ opportunities.insertionSort r :=
      (List.mem_insertionSort r).mpr hopp
    have h := jsFindIndex_range (fun o => decide (o.id = opp.id))
      (opportunities.insertionSort r) ⟨opp, hmem, by simp⟩
    rwa [List.length_insertionSort] at h
  obtain ⟨hp0, hp1⟩ := hfind byProfitDesc inferInstance
  obtain ⟨hv0, hv1⟩ := hfind byVolumeDesc inferInstance
  obtain ⟨hr0, hr1⟩ := hfind byRoiDesc inferInstance
  obtain ⟨hps, hps1⟩ := rank_score_bounds opportunities.length _ hn hp0 hp1
  obtain ⟨hvs, hvs1⟩ := rank_score_bounds opportunities.length _ hn hv0 hv1
  obtain ⟨hrs, hrs1⟩ := rank_score_bounds opportunities.length _ hn hr0 hr1
  dsimp only
  constructor
  · nlinarith
  · nlinarith

/-- Witness for C10: a singleton candidate list, whose unique candidate gets
composite score 1. -/
theorem calculateOpportunityScores_range_witness :
    0 < ({ sampleOpp with compositeScore := 1 } : FlipOpportunity).compositeScore ∧
    ({ sampleOpp with compositeScore := 1 } : FlipOpportunity).compositeScore ≤ 1 :=
  calculateOpportunityScores_range [sampleOpp] (by simp) (by simp)
    { sampleOpp with compositeScore := 1 }
    (by
      have h : calculateOpportunityScores [sampleOpp] =
          [{ sampleOpp with compositeScore := 1 }] := by
        norm_num [calculateOpportunityScores, jsFindIndex, byProfitDesc,
          byVolumeDesc, byRoiDesc, List.insertionSort, List.orderedInsert,
          List.findIdx, List.findIdx.go, sampleOpp]
      rw [h]
      exact List.mem_singleton_self _)

end GETrack
